import Mathlib

/-!
Verification development for the Shippo MCP server.

The TypeScript source is shallowly embedded: JSON runtime values become the
inductive `JsValue`; the HTTP layer is modelled by an oracle of type
`Network` mapping the fetch arguments to an `HttpResponse` whose body is
represented by its JSON-parse result; thrown failures become the sum type
`Thrown`; every client operation of `ShippoClientImpl` is a constructor of
`ClientOp`, executed by `runOp`, which also counts outbound network calls.
-/

namespace Shippo

/-- Runtime JavaScript/JSON values as they occur in this program: parsed
response bodies, request inputs and formatter data. `undefined` is JavaScript
`undefined` (it can appear as a property-read result or the `204` return of
`request`, never inside parsed JSON). Numbers are modelled as integers,
which covers every numeric value these claims touch. -/
inductive JsValue : Type
  | undefined : JsValue
  | null : JsValue
  | bool (b : Bool) : JsValue
  | num (n : Int) : JsValue
  | str (s : String) : JsValue
  | arr (elems : List JsValue) : JsValue
  | obj (fields : List (String × JsValue)) : JsValue
deriving Repr

/-- JavaScript truthiness of a runtime value (`undefined`, `null`, `false`,
`0` and `""` are falsy; arrays and objects are always truthy). -/
def jsTruthy : JsValue → Bool
  | .undefined => false
  | .null => false
  | .bool b => b
  | .num n => n != 0
  | .str s => s != ""
  | .arr _ => true
  | .obj _ => true

/-- Value-level JavaScript `a || b`. -/
def jsOr (a b : JsValue) : JsValue :=
  if jsTruthy a then a else b

/-- Value-level JavaScript `a ?? b` (nullish coalescing). -/
def jsNullish (a b : JsValue) : JsValue :=
  match a with
  | .undefined => b
  | .null => b
  | v => v

mutual

/-- JavaScript string coercion of an array element inside
`Array.prototype.toString`: `null` and `undefined` render as empty. -/
def jsToStrElem : JsValue → String
  | .undefined => ""
  | .null => ""
  | .bool b => if b then "true" else "false"
  | .num n => toString n
  | .str s => s
  | .arr xs => jsToStrList xs
  | .obj _ => "[object Object]"

/-- Comma-join of array elements, as JavaScript `Array.prototype.join(",")`. -/
def jsToStrList : List JsValue → String
  | [] => ""
  | [x] => jsToStrElem x
  | x :: y :: rest => jsToStrElem x ++ "," ++ jsToStrList (y :: rest)

end

/-- JavaScript `String(v)` coercion, used by template literals and by the
`Error` constructor on its message argument. -/
def jsToStr : JsValue → String
  | .undefined => "undefined"
  | .null => "null"
  | .bool b => if b then "true" else "false"
  | .num n => toString n
  | .str s => s
  | .arr xs => jsToStrList xs
  | .obj _ => "[object Object]"

/-- JavaScript property read `v[k]`: a `TypeError` (the `.error` case) on
`null` or `undefined`, the looked-up field (or `undefined`) on an object,
and `undefined` on boxed primitives. -/
def jsGetProp : JsValue → String → Except String JsValue
  | .undefined, k => .error ("Cannot read properties of undefined (reading " ++ k ++ ")")
  | .null, k => .error ("Cannot read properties of null (reading " ++ k ++ ")")
  | .obj fields, k => .ok ((fields.lookup k).getD .undefined)
  | _, _ => .ok .undefined

/-- Truthiness of a nullable string, as used on `headers.get(...)` results
and optional string fields (the string is truthy iff non-empty). -/
def jsTruthyOptStr : Option String → Bool
  | none => false
  | some s => s != ""

/-- JavaScript `h || d` on a nullable string with a string default. -/
def jsOrStr (h : Option String) (d : String) : String :=
  match h with
  | some s => if s != "" then s else d
  | none => d

/-- Whitespace characters skipped by `Number.parseInt`. -/
def isJsWhitespace (c : Char) : Bool :=
  c = ' ' || c = '\t' || c = '\n' || c = '\r' || c = Char.ofNat 11 || c = Char.ofNat 12

/-- Decimal-digit accumulator for `jsParseInt`. -/
def digitsToNat (ds : List Char) : Nat :=
  ds.foldl (fun acc c => acc * 10 + (c.toNat - 48)) 0

/-- Embedding of `Number.parseInt(s, 10)`: skip leading whitespace, read an
optional sign, then the longest prefix of decimal digits; `none` models the
`NaN` result when no digit is found. -/
def jsParseInt (s : String) : Option Int :=
  let cs := s.data.dropWhile isJsWhitespace
  let signAndRest : Int × List Char :=
    match cs with
    | '-' :: rest => (-1, rest)
    | '+' :: rest => (1, rest)
    | rest => (1, rest)
  let digits := signAndRest.2.takeWhile Char.isDigit
  if digits.isEmpty then none
  else some (signAndRest.1 * (digitsToNat digits : Int))

/-- Per-request tenant credentials (`TenantCredentials` in
`src/types/env.ts`); `none` models an `undefined` field. -/
structure TenantCredentials : Type where
  apiKey : Option String
  baseUrl : Option String
deriving Repr

/-- Modelled from the spec: `src/utils/errors.ts` is not present in the
sources, only its importers are, so the closed error taxonomy
(AuthenticationError / RateLimitError / ShippoApiError, plus the engine's
own errors such as TypeError or SyntaxError) is modelled as the tagged sum
the spec describes, each variant carrying the `Error` message (a string,
since the `Error` constructor coerces its argument) and `ShippoApiError`
additionally carrying the numeric status code. -/
inductive Thrown : Type
  | auth (message : String) : Thrown
  | rateLimit (message : String) (retryAfterSeconds : Int) : Thrown
  | api (message : String) (statusCode : Nat) : Thrown
  | jsError (message : String) : Thrown
deriving Repr

/-- Message carried by a thrown failure (`error.message`). -/
def Thrown.message : Thrown → String
  | .auth m => m
  | .rateLimit m _ => m
  | .api m _ => m
  | .jsError m => m

/-- Modelled from the spec: the `RateLimitError` constructor lives in the
missing `src/utils/errors.ts`; per the spec it "carries a retry-after-seconds
hint (default 60)", so a non-numeric (`NaN`, modelled `none`) argument is
stored as the default 60. -/
def mkRateLimitError (message : String) (retryAfterSeconds : Option Int) : Thrown :=
  .rateLimit message (retryAfterSeconds.getD 60)

/-- An HTTP response as the client observes it: the status code, the
`Retry-After` header (`headers.get` yields `null`, i.e. `none`, when
absent), and the body represented by its JSON-parse result (`none` when the
body text is not valid JSON). -/
structure HttpResponse : Type where
  status : Nat
  retryAfter : Option String
  bodyJson : Option JsValue
deriving Repr

/-- The `Response.ok` flag: status in the inclusive range 200-299. -/
def HttpResponse.isOk (r : HttpResponse) : Bool :=
  200 ≤ r.status && r.status ≤ 299

/-- Arguments handed to `fetch`. -/
structure FetchArgs : Type where
  url : String
  method : String
  body : Option String
  headers : List (String × String)

/-- The network oracle: what `fetch` would answer for given arguments. -/
def Network : Type := FetchArgs → HttpResponse

/-- Options of the `request` helper (`RequestInit` as used here). -/
structure RequestOptions : Type where
  method : String
  body : Option String
  headers : List (String × String)

/-- The default options value (`{}`): a GET with no body and no headers. -/
def RequestOptions.default : RequestOptions :=
  { method := "GET", body := none, headers := [] }

/-- Object-spread merge `{...a, ...b}` on string records: keys of `a` keep
their position (with `b`'s value on collision), then `b`'s fresh keys. -/
def spreadMerge (a b : List (String × String)) : List (String × String) :=
  (a.map fun p => (p.1, (b.lookup p.1).getD p.2)) ++
    b.filter (fun p => (a.lookup p.1).isNone)

/-- The fixed default API origin. -/
def API_BASE_URL : String := "https://api.goshippo.com"

/-- The base URL resolved in the constructor:
`credentials.baseUrl || API_BASE_URL`. -/
def resolvedBaseUrl (credentials : TenantCredentials) : String :=
  jsOrStr credentials.baseUrl API_BASE_URL

/-- Embedding of `ShippoClientImpl.getAuthHeaders`: throw
`AuthenticationError` when the key is falsy, else the auth header pair. -/
def getAuthHeaders (credentials : TenantCredentials) :
    Except Thrown (List (String × String)) :=
  if !(jsTruthyOptStr credentials.apiKey) then
    .error (.auth "No credentials provided. Include X-Shippo-API-Key header.")
  else
    .ok [("Authorization", "ShippoToken " ++ credentials.apiKey.getD ""),
         ("Content-Type", "application/json")]

/-- Embedding of the error-message extraction of `request` on a non-2xx
status other than 429/401/403: inside a `try`, parse the body and take
`errorJson.detail || errorJson.message || errorJson.error || message`; a
parse failure or a property read throwing (body `null`) is caught and the
default `"API error: <status>"` kept; the resulting message is coerced to a
string by the `Error` constructor. -/
def apiErrorMessage (bodyJson : Option JsValue) (status : Nat) : String :=
  let dflt := "API error: " ++ toString status
  match bodyJson with
  | none => dflt
  | some errorJson =>
    match jsGetProp errorJson "detail",
        jsGetProp errorJson "message",
        jsGetProp errorJson "error" with
    | .ok d, .ok m, .ok e => jsToStr (jsOr d (jsOr m (jsOr e (.str dflt))))
    | _, _, _ => dflt

/-- Embedding of the response classification in `ShippoClientImpl.request`
(everything after the `fetch`): 429 → `RateLimitError` with the parsed
`Retry-After` hint; 401/403 → `AuthenticationError` with a fixed message;
other non-2xx → `ShippoApiError` with extracted message and the status
code; 204 → `undefined`; otherwise the parsed JSON body (an invalid body
makes `response.json()` reject with a `SyntaxError`). -/
def classifyResponse (response : HttpResponse) : Except Thrown JsValue :=
  if response.status = 429 then
    let retryAfter := response.retryAfter
    .error (mkRateLimitError "Rate limit exceeded"
      (if jsTruthyOptStr retryAfter then jsParseInt (retryAfter.getD "") else some 60))
  else if response.status = 401 || response.status = 403 then
    .error (.auth "Authentication failed. Check your Shippo API key.")
  else if !response.isOk then
    .error (.api (apiErrorMessage response.bodyJson response.status) response.status)
  else if response.status = 204 then
    .ok .undefined
  else
    match response.bodyJson with
    | some j => .ok j
    | none => .error (.jsError "Unexpected end of JSON input")

/-- Embedding of `ShippoClientImpl.request`: check credentials (before any
network I/O), issue the single `fetch`, classify the response. The second
component counts outbound network calls. -/
def request (net : Network) (credentials : TenantCredentials)
    (endpoint : String) (options : RequestOptions) :
    Except Thrown JsValue × Nat :=
  match getAuthHeaders credentials with
  | .error e => (.error e, 0)
  | .ok authHeaders =>
    let response := net
      { url := resolvedBaseUrl credentials ++ endpoint
        method := options.method
        body := options.body
        headers := spreadMerge authHeaders options.headers }
    (classifyResponse response, 1)

/-- UTF-8 encoding of one character as its byte values. -/
def utf8Bytes (c : Char) : List Nat :=
  let n := c.toNat
  if n < 128 then [n]
  else if n < 2048 then [192 + n / 64, 128 + n % 64]
  else if n < 65536 then [224 + n / 4096, 128 + (n / 64) % 64, 128 + n % 64]
  else [240 + n / 262144, 128 + (n / 4096) % 64, 128 + (n / 64) % 64, 128 + n % 64]

/-- Uppercase hexadecimal digit. -/
def hexUpper (n : Nat) : Char :=
  if n < 10 then Char.ofNat (48 + n) else Char.ofNat (55 + n)

/-- Serialization of one byte under `application/x-www-form-urlencoded`
(the `URLSearchParams` serializer): alphanumerics and `*-._` unchanged,
space as `+`, anything else percent-encoded. -/
def formEncodeByte (n : Nat) : String :=
  if (48 ≤ n ∧ n ≤ 57) ∨ (65 ≤ n ∧ n ≤ 90) ∨ (97 ≤ n ∧ n ≤ 122)
      ∨ n = 42 ∨ n = 45 ∨ n = 46 ∨ n = 95 then
    String.singleton (Char.ofNat n)
  else if n = 32 then "+"
  else "%" ++ String.singleton (hexUpper (n / 16)) ++ String.singleton (hexUpper (n % 16))

/-- Form-urlencoding of a string, byte-wise over its UTF-8 encoding. -/
def formEncode (s : String) : String :=
  String.join (((s.data.map utf8Bytes).flatten).map formEncodeByte)

/-- `URLSearchParams.set`: replace the first entry with the given name
(removing later duplicates), or append when the name is fresh. -/
def qsSet : List (String × String) → String → String → List (String × String)
  | [], k, v => [(k, v)]
  | p :: rest, k, v =>
    if p.1 = k then (k, v) :: rest.filter (fun q => q.1 ≠ k)
    else p :: qsSet rest k v

/-- `URLSearchParams.toString`: the `name=value` pairs, each side
form-urlencoded, joined with `&`. -/
def qsToString : List (String × String) → String
  | [] => ""
  | [p] => formEncode p.1 ++ "=" ++ formEncode p.2
  | p :: q :: rest => formEncode p.1 ++ "=" ++ formEncode p.2 ++ "&" ++ qsToString (q :: rest)

/-- The check `value !== undefined && value !== null` of
`buildQueryString`. -/
def jsPresent : JsValue → Bool
  | .undefined => false
  | .null => false
  | _ => true

/-- One loop iteration of `buildQueryString`: present values are set on the
`URLSearchParams` (stringified), absent ones are skipped. -/
def qsAddParam (q : List (String × String)) (p : String × JsValue) :
    List (String × String) :=
  if jsPresent p.2 then qsSet q p.1 (jsToStr p.2) else q

/-- Embedding of `ShippoClientImpl.buildQueryString`: `undefined` input
gives `""`; otherwise fold the entries into a `URLSearchParams`, and prefix
the non-empty serialization with `?` (empty serialization gives `""`). -/
def buildQueryString (params : Option (List (String × JsValue))) : String :=
  match params with
  | none => ""
  | some entries =>
    let query := entries.foldl qsAddParam []
    let s := qsToString query
    if s != "" then "?" ++ s else ""

/-- The retry hint as the spec phrases it: the integer parse of the
`Retry-After` header when present and numeric, else 60. -/
def retryHintSpec (h : Option String) : Int :=
  match h with
  | none => 60
  | some s => (jsParseInt s).getD 60

/-- Claim C1: every 429 response is thrown as a rate-limit failure whose
retry-after-seconds equals the integer parse of the `Retry-After` header
when present, and 60 when the header is absent or non-numeric. -/
theorem c1_rate_limit_retry_hint (response : HttpResponse)
    (h429 : response.status = 429) :
    classifyResponse response =
      .error (.rateLimit "Rate limit exceeded" (retryHintSpec response.retryAfter)) ∧
    ∀ (net : Network) (credentials : TenantCredentials)
      (endpoint : String) (options : RequestOptions),
      jsTruthyOptStr credentials.apiKey = true →
      (∀ args, net args = response) →
      request net credentials endpoint options =
        (.error (.rateLimit "Rate limit exceeded" (retryHintSpec response.retryAfter)), 1) := by
  have hclass : classifyResponse response =
      .error (.rateLimit "Rate limit exceeded" (retryHintSpec response.retryAfter)) := by
    unfold classifyResponse
    rw [if_pos h429]
    cases hra : response.retryAfter with
    | none => simp [mkRateLimitError, retryHintSpec, jsTruthyOptStr]
    | some s =>
      by_cases hs : s = ""
      · subst hs
        simp [mkRateLimitError, retryHintSpec, jsTruthyOptStr, jsParseInt,
          digitsToNat, isJsWhitespace]
      · simp [mkRateLimitError, retryHintSpec, jsTruthyOptStr, hs]
  refine ⟨hclass, ?_⟩
  intro net credentials endpoint options hkey hnet
  unfold request getAuthHeaders
  rw [hkey]
  simp only [Bool.not_true, Bool.false_eq_true, if_false, hnet, hclass]

/-- Witness for C1 at concrete inputs: header `"120"` yields 120, header
`"NaN"` yields 60, a missing header yields 60; and through `request` with a
concrete key and oracle. -/
theorem c1_rate_limit_retry_hint_witness :
    classifyResponse { status := 429, retryAfter := some "120", bodyJson := none } =
      .error (.rateLimit "Rate limit exceeded" 120) ∧
    classifyResponse { status := 429, retryAfter := some "NaN", bodyJson := none } =
      .error (.rateLimit "Rate limit exceeded" 60) ∧
    classifyResponse { status := 429, retryAfter := none, bodyJson := none } =
      .error (.rateLimit "Rate limit exceeded" 60) ∧
    request (fun _ => { status := 429, retryAfter := some "120", bodyJson := none })
        { apiKey := some "shippo_test_key", baseUrl := none } "/addresses"
        RequestOptions.default =
      (.error (.rateLimit "Rate limit exceeded" 120), 1) := by
  have h120 := c1_rate_limit_retry_hint
    { status := 429, retryAfter := some "120", bodyJson := none } rfl
  have hnan := c1_rate_limit_retry_hint
    { status := 429, retryAfter := some "NaN", bodyJson := none } rfl
  have hnone := c1_rate_limit_retry_hint
    { status := 429, retryAfter := none, bodyJson := none } rfl
  refine ⟨?_, ?_, ?_, ?_⟩
  · have := h120.1
    simpa [retryHintSpec, jsParseInt, digitsToNat, isJsWhitespace] using this
  · have := hnan.1
    simpa [retryHintSpec, jsParseInt, digitsToNat, isJsWhitespace] using this
  · have := hnone.1
    simpa [retryHintSpec] using this
  · have := h120.2 (fun _ => { status := 429, retryAfter := some "120", bodyJson := none })
      { apiKey := some "shippo_test_key", baseUrl := none } "/addresses"
      RequestOptions.default (by decide) (fun _ => rfl)
    simpa [retryHintSpec, jsParseInt, digitsToNat, isJsWhitespace] using this

theorem foldl_qsAddParam_filter (entries : List (String × JsValue)) :
    ∀ acc, entries.foldl qsAddParam acc =
      (entries.filter (fun p => jsPresent p.2)).foldl qsAddParam acc := by
  induction entries with
  | nil => intro acc; rfl
  | cons p rest ih =>
    intro acc
    by_cases hp : jsPresent p.2 = true
    · simp only [List.filter_cons, hp, if_pos, List.foldl_cons]
      exact ih (qsAddParam acc p)
    · simp only [List.filter_cons, List.foldl_cons]
      rw [if_neg (by simpa using hp)]
      have hstep : qsAddParam acc p = acc := by
        simp [qsAddParam, hp]
      rw [hstep]
      exact ih acc

theorem qsSet_fresh (acc : List (String × String)) (k v : String)
    (h : ∀ p ∈ acc, p.1 ≠ k) : qsSet acc k v = acc ++ [(k, v)] := by
  induction acc with
  | nil => rfl
  | cons p rest ih =>
    have hp : p.1 ≠ k := h p (by simp)
    show (if p.1 = k then (k, v) :: rest.filter (fun q => q.1 ≠ k)
      else p :: qsSet rest k v) = (p :: rest) ++ [(k, v)]
    rw [if_neg hp, ih (fun q hq => h q (by simp [hq]))]
    rfl

theorem foldl_qsAddParam_present (entries : List (String × JsValue)) :
    ∀ acc : List (String × String),
      (∀ q ∈ acc, ∀ p ∈ entries, q.1 ≠ p.1) →
      entries.Pairwise (fun p q => p.1 ≠ q.1) →
      (∀ p ∈ entries, jsPresent p.2 = true) →
      entries.foldl qsAddParam acc =
        acc ++ entries.map (fun p => (p.1, jsToStr p.2)) := by
  induction entries with
  | nil => intro acc _ _ _; simp
  | cons p rest ih =>
    intro acc hdisj hnodup hpres
    obtain ⟨hhead, htail⟩ := List.pairwise_cons.mp hnodup
    have hp := hpres p (by simp)
    have hfresh : ∀ q ∈ acc, q.1 ≠ p.1 := fun q hq => hdisj q hq p (by simp)
    have hstep : qsAddParam acc p = acc ++ [(p.1, jsToStr p.2)] := by
      simp only [qsAddParam, hp, if_pos]
      exact qsSet_fresh acc p.1 (jsToStr p.2) hfresh
    rw [List.foldl_cons, hstep,
      ih (acc ++ [(p.1, jsToStr p.2)]) ?_ htail (fun q hq => hpres q (by simp [hq]))]
    · simp
    · intro q hq r hr
      rcases List.mem_append.mp hq with hcase | hcase
      · exact hdisj q hcase r (by simp [hr])
      · have : q = (p.1, jsToStr p.2) := by simpa using hcase
        rw [this]
        exact hhead r hr

theorem qsToString_cons_ne_empty (p : String × String)
    (l : List (String × String)) : qsToString (p :: l) ≠ "" := by
  intro h
  have hlen := congrArg String.length h
  cases l with
  | nil =>
    simp [qsToString, String.length_append] at hlen
    exact absurd hlen.1.2 (by decide)
  | cons q rest =>
    simp [qsToString, String.length_append] at hlen
    exact absurd hlen.1.1.1.2 (by decide)

/-- Claim C5: the query-string builder omits parameters whose value is
`null` or `undefined`, stringifies every present value, returns `""` for an
absent input or an empty resulting parameter set, and otherwise prefixes
the parameters, serialized in insertion order, with `?`; in particular
`{results: 20, page: undefined}` gives `"?results=20"` and `{}` or an
absent input gives `""`. -/
theorem c5_build_query_string :
    buildQueryString none = "" ∧
    buildQueryString (some []) = "" ∧
    (∀ entries, buildQueryString (some entries) =
      buildQueryString (some (entries.filter (fun p => jsPresent p.2)))) ∧
    (∀ entries, entries.filter (fun p => jsPresent p.2) = [] →
      buildQueryString (some entries) = "") ∧
    (∀ entries, entries ≠ [] →
      entries.Pairwise (fun p q => p.1 ≠ q.1) →
      (∀ p ∈ entries, jsPresent p.2 = true) →
      buildQueryString (some entries) =
        "?" ++ qsToString (entries.map (fun p => (p.1, jsToStr p.2)))) ∧
    buildQueryString (some [("results", .num 20), ("page", .undefined)]) = "?results=20" := by
  have hfilter : ∀ entries, buildQueryString (some entries) =
      buildQueryString (some (entries.filter (fun p => jsPresent p.2))) := by
    intro entries
    simp only [buildQueryString]
    rw [foldl_qsAddParam_filter entries []]
  refine ⟨rfl, rfl, hfilter, ?_, ?_, ?_⟩
  · intro entries hempty
    rw [hfilter entries, hempty]
    rfl
  · intro entries hne hnodup hpres
    simp only [buildQueryString]
    rw [foldl_qsAddParam_present entries [] (by simp) hnodup hpres]
    cases entries with
    | nil => exact absurd rfl hne
    | cons p rest =>
      rw [List.nil_append, List.map_cons]
      rw [if_pos]
      simp only [bne_iff_ne, ne_eq]
      exact qsToString_cons_ne_empty _ _
  · decide

/-- Witness for C5: two present parameters serialize in insertion order
with the `?` prefix, via the general insertion-order clause. -/
theorem c5_build_query_string_witness :
    buildQueryString (some [("results", .num 20), ("page", .num 2)]) =
      "?results=20&page=2" := by
  have h := c5_build_query_string.2.2.2.2.1
    [("results", JsValue.num 20), ("page", JsValue.num 2)]
    (by simp) (by simp [List.pairwise_cons]) (by decide)
  rw [h]
  decide

/-- The message-selection rule stated spec-side, amended to truthiness: the
stringified value of the first truthy field among `detail`, `message`,
`error` of a JSON-object body, else `"API error: <status>"`; a non-JSON or
non-object body always gives the default. -/
def apiMessageSpec (bodyJson : Option JsValue) (status : Nat) : String :=
  let dflt := "API error: " ++ toString status
  match bodyJson with
  | none => dflt
  | some (.obj fields) =>
    let d := (fields.lookup "detail").getD .undefined
    let m := (fields.lookup "message").getD .undefined
    let e := (fields.lookup "error").getD .undefined
    if jsTruthy d then jsToStr d
    else if jsTruthy m then jsToStr m
    else if jsTruthy e then jsToStr e
    else dflt
  | some _ => dflt

theorem apiErrorMessage_eq_spec (bodyJson : Option JsValue) (status : Nat) :
    apiErrorMessage bodyJson status = apiMessageSpec bodyJson status := by
  cases bodyJson with
  | none => rfl
  | some j =>
    cases j with
    | obj fields =>
      simp only [apiErrorMessage, apiMessageSpec, jsGetProp]
      by_cases hd : jsTruthy ((fields.lookup "detail").getD .undefined) = true
      · simp [jsOr, hd]
      · by_cases hm : jsTruthy ((fields.lookup "message").getD .undefined) = true
        · simp [jsOr, hd, hm]
        · by_cases he : jsTruthy ((fields.lookup "error").getD .undefined) = true
          · simp [jsOr, hd, hm, he]
          · simp [jsOr, hd, hm, he, jsToStr]
    | undefined => rfl
    | null => rfl
    | bool b => rfl
    | num n => rfl
    | str s => rfl
    | arr xs => rfl

/-- Counterexample to claim C3 as stated: the body
`{"detail": "", "message": "boom"}` is valid JSON containing `detail`, so
the claim requires the thrown message to be the value of `detail` (the
empty string), but the `||` chain in `request` skips the falsy empty
string and the code throws message `"boom"`. -/
theorem c3_counterexample :
    classifyResponse
        { status := 500, retryAfter := none,
          bodyJson := some (.obj [("detail", .str ""), ("message", .str "boom")]) } =
      .error (.api "boom" 500) ∧ "boom" ≠ "" := by
  exact ⟨rfl, by decide⟩

/-- Claim C3 (amended): for a non-2xx status other than 429, 401, 403, the
thrown API failure carries the numeric status code, and its message is the
value of the first truthy field among `detail`, `message`, `error` when
the body is a JSON object, else `"API error: <status>"`; a non-JSON body
always gives `"API error: <status>"`. -/
theorem c3_api_error_classification (response : HttpResponse)
    (h429 : response.status ≠ 429) (h401 : response.status ≠ 401)
    (h403 : response.status ≠ 403) (hok : response.isOk = false) :
    classifyResponse response =
      .error (.api (apiMessageSpec response.bodyJson response.status) response.status) ∧
    (response.bodyJson = none →
      apiMessageSpec response.bodyJson response.status =
        "API error: " ++ toString response.status) := by
  constructor
  · unfold classifyResponse
    rw [if_neg h429, if_neg (by simp [h401, h403]), if_pos (by simp [hok]),
      apiErrorMessage_eq_spec]
  · intro hnone
    rw [hnone]
    rfl

/-- Witness for C3 (amended): a 500 with body
`{"detail": "", "message": "boom"}` throws an API failure with message
`"boom"` and status 500, and a 502 with a non-JSON body throws
`"API error: 502"`. -/
theorem c3_api_error_classification_witness :
    classifyResponse
        { status := 500, retryAfter := none,
          bodyJson := some (.obj [("detail", .str ""), ("message", .str "boom")]) } =
      .error (.api "boom" 500) ∧
    classifyResponse { status := 502, retryAfter := none, bodyJson := none } =
      .error (.api "API error: 502" 502) := by
  constructor
  · have h := c3_api_error_classification
      { status := 500, retryAfter := none,
        bodyJson := some (.obj [("detail", .str ""), ("message", .str "boom")]) }
      (by decide) (by decide) (by decide) (by decide)
    rw [h.1]
    rfl
  · have h := c3_api_error_classification
      { status := 502, retryAfter := none, bodyJson := none }
      (by decide) (by decide) (by decide) (by decide)
    rw [h.1]
    rfl

/-- Lowercase hexadecimal digit. -/
def hexLower (n : Nat) : Char :=
  if n < 10 then Char.ofNat (48 + n) else Char.ofNat (87 + n)

/-- JSON escaping of one character inside a string literal, as
`JSON.stringify` produces it. -/
def jsonEscapeChar (c : Char) : String :=
  if c = Char.ofNat 34 then "\\\""
  else if c = '\\' then "\\\\"
  else if c = '\n' then "\\n"
  else if c = '\r' then "\\r"
  else if c = '\t' then "\\t"
  else if c = Char.ofNat 8 then "\\b"
  else if c = Char.ofNat 12 then "\\f"
  else if c.toNat < 32 then
    "\\u00" ++ String.singleton (hexLower (c.toNat / 16)) ++
      String.singleton (hexLower (c.toNat % 16))
  else String.singleton c

/-- A JSON string literal with its quotes. -/
def jsonQuote (s : String) : String :=
  "\"" ++ String.join (s.data.map jsonEscapeChar) ++ "\""

mutual

/-- Compact `JSON.stringify(v)` (no spacing), as used on request bodies;
`none` models the `undefined` result on an `undefined` argument. -/
def jsonStringifyC : JsValue → Option String
  | .undefined => none
  | .null => some "null"
  | .bool b => some (if b then "true" else "false")
  | .num n => some (toString n)
  | .str s => some (jsonQuote s)
  | .arr xs => some ("[" ++ jsonStringifyArrC xs ++ "]")
  | .obj fs => some ("\x7b" ++ jsonStringifyObjC fs ++ "\x7d")

/-- Comma-joined compact array items (`undefined` items render `null`). -/
def jsonStringifyArrC : List JsValue → String
  | [] => ""
  | [x] => (jsonStringifyC x).getD "null"
  | x :: y :: rest => (jsonStringifyC x).getD "null" ++ "," ++ jsonStringifyArrC (y :: rest)

/-- Comma-joined compact object entries (`undefined` values omitted). -/
def jsonStringifyObjC : List (String × JsValue) → String
  | [] => ""
  | (k, v) :: rest =>
    match jsonStringifyC v with
    | none => jsonStringifyObjC rest
    | some sv =>
      let restS := jsonStringifyObjC rest
      if restS = "" then jsonQuote k ++ ":" ++ sv
      else jsonQuote k ++ ":" ++ sv ++ "," ++ restS

end

/-- Indentation of the given width. -/
def spaces (n : Nat) : String := String.mk (List.replicate n ' ')

mutual

/-- Pretty `JSON.stringify(v, null, 2)` at the given current indentation,
as used by the response formatters; `none` models the `undefined` result
on an `undefined` argument. -/
def jsonStringifyP : Nat → JsValue → Option String
  | _, .undefined => none
  | _, .null => some "null"
  | _, .bool b => some (if b then "true" else "false")
  | _, .num n => some (toString n)
  | _, .str s => some (jsonQuote s)
  | _, .arr [] => some "[]"
  | ind, .arr (x :: xs) =>
    some ("[\n" ++ String.intercalate ",\n" (jsonStringifyArrP (ind + 2) (x :: xs)) ++
      "\n" ++ spaces ind ++ "]")
  | ind, .obj fs =>
    match jsonStringifyObjP (ind + 2) fs with
    | [] => some "\x7b\x7d"
    | item :: items =>
      some ("\x7b\n" ++ String.intercalate ",\n" (item :: items) ++
        "\n" ++ spaces ind ++ "\x7d")

/-- Rendered, indented array items for the pretty printer. -/
def jsonStringifyArrP : Nat → List JsValue → List String
  | _, [] => []
  | ind, x :: rest =>
    (spaces ind ++ (jsonStringifyP ind x).getD "null") :: jsonStringifyArrP ind rest

/-- Rendered, indented object entries for the pretty printer
(`undefined` values omitted). -/
def jsonStringifyObjP : Nat → List (String × JsValue) → List String
  | _, [] => []
  | ind, (k, v) :: rest =>
    match jsonStringifyP ind v with
    | none => jsonStringifyObjP ind rest
    | some sv => (spaces ind ++ jsonQuote k ++ ": " ++ sv) :: jsonStringifyObjP ind rest

end

/-- One client operation per method of the `ShippoClient` interface, with
its arguments (ids and tokens as strings, create/update inputs as runtime
values, pagination/filter params as the entry list of the params object,
`none` for an omitted optional argument). -/
inductive ClientOp : Type
  | testConnection
  | listAddresses (params : Option (List (String × JsValue)))
  | getAddress (id : String)
  | createAddress (input : JsValue)
  | validateAddress (id : String)
  | listParcels (params : Option (List (String × JsValue)))
  | getParcel (id : String)
  | createParcel (input : JsValue)
  | listShipments (params : Option (List (String × JsValue)))
  | getShipment (id : String)
  | createShipment (input : JsValue)
  | getRate (id : String)
  | listShipmentRates (shipmentId : String) (currency : Option String)
  | listTransactions (params : Option (List (String × JsValue)))
  | getTransaction (id : String)
  | createTransaction (input : JsValue)
  | createInstantTransaction (input : JsValue)
  | getTrackingStatus (carrier : String) (trackingNumber : String)
  | registerTrackingWebhook (input : JsValue)
  | createRefund (input : JsValue)
  | getRefund (id : String)
  | listCarrierAccounts (params : Option (List (String × JsValue)))
  | getCarrierAccount (id : String)
  | createCarrierAccount (input : JsValue)
  | updateCarrierAccount (id : String) (input : JsValue)
  | listCustomsItems (params : Option (List (String × JsValue)))
  | getCustomsItem (id : String)
  | createCustomsItem (input : JsValue)
  | listCustomsDeclarations (params : Option (List (String × JsValue)))
  | getCustomsDeclaration (id : String)
  | createCustomsDeclaration (input : JsValue)
  | listManifests (params : Option (List (String × JsValue)))
  | getManifest (id : String)
  | createManifest (input : JsValue)
  | getBatch (id : String)
  | createBatch (input : JsValue)
  | addShipmentsToBatch (batchId : String) (input : JsValue)
  | removeShipmentsFromBatch (batchId : String) (input : JsValue)
  | purchaseBatch (batchId : String)
  | createPickup (input : JsValue)
  | listOrders (params : Option (List (String × JsValue)))
  | getOrder (id : String)
  | createOrder (input : JsValue)
  | listServiceGroups
  | createServiceGroup (input : JsValue)
  | updateServiceGroup (input : JsValue)
  | deleteServiceGroup (id : String)
  | listCarrierParcelTemplates (params : Option (List (String × JsValue)))
  | getCarrierParcelTemplate (token : String)
  | listUserParcelTemplates (params : Option (List (String × JsValue)))
  | getUserParcelTemplate (id : String)
  | createUserParcelTemplate (input : JsValue)
  | deleteUserParcelTemplate (id : String)
  | createLiveRate (input : JsValue)
  | getDefaultParcelTemplate
  | updateDefaultParcelTemplate (input : JsValue)
  | deleteDefaultParcelTemplate

/-- `{ method: 'POST', body: JSON.stringify(input) }`. -/
def postOpts (input : JsValue) : RequestOptions :=
  { method := "POST", body := jsonStringifyC input, headers := [] }

/-- `{ method: 'PUT', body: JSON.stringify(input) }`. -/
def putOpts (input : JsValue) : RequestOptions :=
  { method := "PUT", body := jsonStringifyC input, headers := [] }

/-- `{ method: 'POST' }` with no body (`purchaseBatch`). -/
def postNoBody : RequestOptions :=
  { method := "POST", body := none, headers := [] }

/-- `{ method: 'DELETE' }`. -/
def deleteOpts : RequestOptions :=
  { method := "DELETE", body := none, headers := [] }

/-- A `Promise<void>` method (`await this.request<void>(...)` then an
implicit `return`): the awaited value is dropped and `undefined` returned. -/
def asVoid : Except Thrown JsValue × Nat → Except Thrown JsValue × Nat
  | (.ok _, n) => (.ok .undefined, n)
  | r => r

/-- Execution of one client operation against the network oracle, per the
bodies of `ShippoClientImpl`; the second component counts outbound network
calls. Plain operations are a single `request`; `testConnection`,
`createLiveRate` and `getDefaultParcelTemplate` wrap it exactly as in the
source. -/
def runOp (net : Network) (credentials : TenantCredentials) :
    ClientOp → Except Thrown JsValue × Nat
  | .testConnection =>
    match request net credentials "/addresses?results=1" RequestOptions.default with
    | (.ok _, n) =>
      (.ok (.obj [("connected", .bool true),
        ("message", .str "Successfully connected to Shippo API")]), n)
    | (.error e, n) =>
      (.ok (.obj [("connected", .bool false), ("message", .str e.message)]), n)
  | .listAddresses params =>
    request net credentials ("/addresses" ++ buildQueryString params) RequestOptions.default
  | .getAddress id =>
    request net credentials ("/addresses/" ++ id) RequestOptions.default
  | .createAddress input => request net credentials "/addresses" (postOpts input)
  | .validateAddress id =>
    request net credentials ("/addresses/" ++ id ++ "/validate") RequestOptions.default
  | .listParcels params =>
    request net credentials ("/parcels" ++ buildQueryString params) RequestOptions.default
  | .getParcel id =>
    request net credentials ("/parcels/" ++ id) RequestOptions.default
  | .createParcel input => request net credentials "/parcels" (postOpts input)
  | .listShipments params =>
    request net credentials ("/shipments" ++ buildQueryString params) RequestOptions.default
  | .getShipment id =>
    request net credentials ("/shipments/" ++ id) RequestOptions.default
  | .createShipment input => request net credentials "/shipments" (postOpts input)
  | .getRate id =>
    request net credentials ("/rates/" ++ id) RequestOptions.default
  | .listShipmentRates shipmentId currency =>
    let endpoint :=
      if jsTruthyOptStr currency then
        "/shipments/" ++ shipmentId ++ "/rates/" ++ currency.getD ""
      else "/shipments/" ++ shipmentId ++ "/rates"
    request net credentials endpoint RequestOptions.default
  | .listTransactions params =>
    request net credentials ("/transactions" ++ buildQueryString params) RequestOptions.default
  | .getTransaction id =>
    request net credentials ("/transactions/" ++ id) RequestOptions.default
  | .createTransaction input => request net credentials "/transactions" (postOpts input)
  | .createInstantTransaction input => request net credentials "/transactions" (postOpts input)
  | .getTrackingStatus carrier trackingNumber =>
    request net credentials ("/tracks/" ++ carrier ++ "/" ++ trackingNumber)
      RequestOptions.default
  | .registerTrackingWebhook input => request net credentials "/tracks" (postOpts input)
  | .createRefund input => request net credentials "/refunds" (postOpts input)
  | .getRefund id =>
    request net credentials ("/refunds/" ++ id) RequestOptions.default
  | .listCarrierAccounts params =>
    request net credentials ("/carrier_accounts" ++ buildQueryString params)
      RequestOptions.default
  | .getCarrierAccount id =>
    request net credentials ("/carrier_accounts/" ++ id) RequestOptions.default
  | .createCarrierAccount input => request net credentials "/carrier_accounts" (postOpts input)
  | .updateCarrierAccount id input =>
    request net credentials ("/carrier_accounts/" ++ id) (putOpts input)
  | .listCustomsItems params =>
    request net credentials ("/customs/items" ++ buildQueryString params)
      RequestOptions.default
  | .getCustomsItem id =>
    request net credentials ("/customs/items/" ++ id) RequestOptions.default
  | .createCustomsItem input => request net credentials "/customs/items" (postOpts input)
  | .listCustomsDeclarations params =>
    request net credentials ("/customs/declarations" ++ buildQueryString params)
      RequestOptions.default
  | .getCustomsDeclaration id =>
    request net credentials ("/customs/declarations/" ++ id) RequestOptions.default
  | .createCustomsDeclaration input =>
    request net credentials "/customs/declarations" (postOpts input)
  | .listManifests params =>
    request net credentials ("/manifests" ++ buildQueryString params) RequestOptions.default
  | .getManifest id =>
    request net credentials ("/manifests/" ++ id) RequestOptions.default
  | .createManifest input => request net credentials "/manifests" (postOpts input)
  | .getBatch id =>
    request net credentials ("/batches/" ++ id) RequestOptions.default
  | .createBatch input => request net credentials "/batches" (postOpts input)
  | .addShipmentsToBatch batchId input =>
    request net credentials ("/batches/" ++ batchId ++ "/add_shipments") (postOpts input)
  | .removeShipmentsFromBatch batchId input =>
    request net credentials ("/batches/" ++ batchId ++ "/remove_shipments") (postOpts input)
  | .purchaseBatch batchId =>
    request net credentials ("/batches/" ++ batchId ++ "/purchase") postNoBody
  | .createPickup input => request net credentials "/pickups" (postOpts input)
  | .listOrders params =>
    request net credentials ("/orders" ++ buildQueryString params) RequestOptions.default
  | .getOrder id =>
    request net credentials ("/orders/" ++ id) RequestOptions.default
  | .createOrder input => request net credentials "/orders" (postOpts input)
  | .listServiceGroups =>
    request net credentials "/service-groups" RequestOptions.default
  | .createServiceGroup input => request net credentials "/service-groups" (postOpts input)
  | .updateServiceGroup input => request net credentials "/service-groups" (putOpts input)
  | .deleteServiceGroup id =>
    asVoid (request net credentials ("/service-groups/" ++ id) deleteOpts)
  | .listCarrierParcelTemplates params =>
    request net credentials ("/parcel-templates" ++ buildQueryString params)
      RequestOptions.default
  | .getCarrierParcelTemplate token =>
    request net credentials ("/parcel-templates/" ++ token) RequestOptions.default
  | .listUserParcelTemplates params =>
    request net credentials ("/user-parcel-templates" ++ buildQueryString params)
      RequestOptions.default
  | .getUserParcelTemplate id =>
    request net credentials ("/user-parcel-templates/" ++ id) RequestOptions.default
  | .createUserParcelTemplate input =>
    request net credentials "/user-parcel-templates" (postOpts input)
  | .deleteUserParcelTemplate id =>
    asVoid (request net credentials ("/user-parcel-templates/" ++ id) deleteOpts)
  | .createLiveRate input =>
    match request net credentials "/live-rates" (postOpts input) with
    | (.ok response, n) =>
      match jsGetProp response "results" with
      | .ok v => (.ok v, n)
      | .error m => (.error (.jsError m), n)
    | r => r
  | .getDefaultParcelTemplate =>
    match request net credentials "/live-rates/settings/parcel-template"
        RequestOptions.default with
    | (.error (.api _ 404), n) => (.ok .null, n)
    | r => r
  | .updateDefaultParcelTemplate input =>
    request net credentials "/live-rates/settings/parcel-template" (putOpts input)
  | .deleteDefaultParcelTemplate =>
    asVoid (request net credentials "/live-rates/settings/parcel-template" deleteOpts)

/-- Embedding of `parseTenantCredentials` (src/types/env.ts): each header
value (`headers.get` yields `null`, modelled `none`, when absent) is taken
with `|| undefined`, so an empty-string header value becomes an undefined
credential field. -/
def parseTenantCredentials (apiKeyHeader baseUrlHeader : Option String) :
    TenantCredentials :=
  { apiKey := if jsTruthyOptStr apiKeyHeader then apiKeyHeader else none
    baseUrl := if jsTruthyOptStr baseUrlHeader then baseUrlHeader else none }

theorem request_missing_key (net : Network) (credentials : TenantCredentials)
    (h : jsTruthyOptStr credentials.apiKey = false)
    (endpoint : String) (options : RequestOptions) :
    request net credentials endpoint options =
      (.error (.auth "No credentials provided. Include X-Shippo-API-Key header."), 0) := by
  unfold request getAuthHeaders
  rw [h]
  rfl

theorem runOp_missing_key (net : Network) (credentials : TenantCredentials)
    (h : jsTruthyOptStr credentials.apiKey = false) (op : ClientOp) :
    runOp net credentials op =
      (match op with
      | .testConnection =>
        (.ok (.obj [("connected", .bool false),
          ("message", .str "No credentials provided. Include X-Shippo-API-Key header.")]), 0)
      | _ =>
        (.error (.auth "No credentials provided. Include X-Shippo-API-Key header."), 0)) := by
  have hreq := request_missing_key net credentials h
  cases op <;> simp only [runOp, hreq, asVoid, Thrown.message]

/-- A concrete network oracle that would answer every call with a 200 and
a small JSON object, for exercising the credential check. -/
def mockOkNet : Network := fun _ =>
  { status := 200, retryAfter := none, bodyJson := some (.obj [("count", .num 0)]) }

/-- Counterexample to claim C4 as stated: `testConnection` is a client
operation, yet invoked with `{apiKey: undefined}` it does not throw — it
catches the internal `AuthenticationError` and returns a connected-false
value (the network-call count does stay zero). -/
theorem c4_counterexample :
    runOp mockOkNet { apiKey := none, baseUrl := none } .testConnection =
      (.ok (.obj [("connected", .bool false),
        ("message", .str "No credentials provided. Include X-Shippo-API-Key header.")]), 0) := by
  exact runOp_missing_key mockOkNet { apiKey := none, baseUrl := none } rfl .testConnection

/-- Claim C4 (amended): with credentials whose apiKey is undefined, every
client operation other than `testConnection` throws `AuthenticationError`
before any network call (the network-call count stays zero);
`testConnection` catches that failure and returns `{connected: false}`
with the failure's message, likewise with zero network calls. -/
theorem c4_missing_key_no_network (net : Network) (credentials : TenantCredentials)
    (hkey : credentials.apiKey = none) :
    (∀ op : ClientOp, op ≠ .testConnection →
      runOp net credentials op =
        (.error (.auth "No credentials provided. Include X-Shippo-API-Key header."), 0)) ∧
    runOp net credentials .testConnection =
      (.ok (.obj [("connected", .bool false),
        ("message", .str "No credentials provided. Include X-Shippo-API-Key header.")]), 0) := by
  have h : jsTruthyOptStr credentials.apiKey = false := by rw [hkey]; rfl
  have hall := runOp_missing_key net credentials h
  constructor
  · intro op hne
    have hop := hall op
    cases op <;> first | exact absurd rfl hne | exact hop
  · exact hall .testConnection

/-- Witness for C4 (amended): `getAddress` with a missing key throws the
authentication failure with zero network calls. -/
theorem c4_missing_key_no_network_witness :
    runOp mockOkNet { apiKey := none, baseUrl := none } (.getAddress "adr_1") =
      (.error (.auth "No credentials provided. Include X-Shippo-API-Key header."), 0) := by
  exact (c4_missing_key_no_network mockOkNet { apiKey := none, baseUrl := none } rfl).1
    (.getAddress "adr_1") (fun hc => ClientOp.noConfusion hc)

/-- Counterexample to claim C9 as stated: with an empty-string apiKey the
operation `testConnection` does not throw `AuthenticationError` — it
returns a connected-false value (with zero network calls). -/
theorem c9_counterexample :
    runOp mockOkNet { apiKey := some "", baseUrl := none } .testConnection =
      (.ok (.obj [("connected", .bool false),
        ("message", .str "No credentials provided. Include X-Shippo-API-Key header.")]), 0) := by
  exact runOp_missing_key mockOkNet { apiKey := some "", baseUrl := none } rfl .testConnection

/-- Claim C9 (amended): an empty-string `X-Shippo-API-Key` header is
treated identically to an absent one — `parseTenantCredentials` maps it to
an undefined apiKey, every operation behaves the same under an
empty-string key as under an undefined one, and every operation other than
`testConnection` then throws `AuthenticationError` with zero network
calls (`testConnection` returns connected-false with zero calls). -/
theorem c9_empty_key_as_missing :
    (∀ baseUrlHeader, (parseTenantCredentials (some "") baseUrlHeader).apiKey = none) ∧
    (∀ (net : Network) (baseUrl : Option String) (op : ClientOp),
      runOp net { apiKey := some "", baseUrl := baseUrl } op =
        runOp net { apiKey := none, baseUrl := baseUrl } op) ∧
    (∀ (net : Network) (baseUrl : Option String) (op : ClientOp),
      op ≠ .testConnection →
      runOp net { apiKey := some "", baseUrl := baseUrl } op =
        (.error (.auth "No credentials provided. Include X-Shippo-API-Key header."), 0)) := by
  refine ⟨fun baseUrlHeader => rfl, ?_, ?_⟩
  · intro net baseUrl op
    rw [runOp_missing_key net { apiKey := some "", baseUrl := baseUrl } rfl op,
      runOp_missing_key net { apiKey := none, baseUrl := baseUrl } rfl op]
  · intro net baseUrl op hne
    have hop := runOp_missing_key net { apiKey := some "", baseUrl := baseUrl } rfl op
    cases op <;> first | exact absurd rfl hne | exact hop

/-- Witness for C9 (amended): parsing an empty-string key header gives an
undefined apiKey, and `listAddresses` under the empty-string key fails
exactly like under the missing key: authentication failure, zero calls. -/
theorem c9_empty_key_as_missing_witness :
    (parseTenantCredentials (some "") none).apiKey = none ∧
    runOp mockOkNet { apiKey := some "", baseUrl := none } (.listAddresses none) =
      (.error (.auth "No credentials provided. Include X-Shippo-API-Key header."), 0) := by
  refine ⟨c9_empty_key_as_missing.1 none, ?_⟩
  exact c9_empty_key_as_missing.2.2 mockOkNet none (.listAddresses none)
    (fun hc => ClientOp.noConfusion hc)

/-- Claim C2: `getDefaultParcelTemplate` turns a 404 API failure of the
underlying get-call into the successful result `null`; every other failure
of the underlying call — a 500 API failure, an authentication failure, a
rate-limit failure — propagates unchanged, and a succeeding call passes
its decoded value through. -/
theorem c2_default_parcel_template_404 (net : Network)
    (credentials : TenantCredentials) :
    (∀ m n, request net credentials "/live-rates/settings/parcel-template"
        RequestOptions.default = (.error (.api m 404), n) →
      runOp net credentials .getDefaultParcelTemplate = (.ok .null, n)) ∧
    (∀ e n, request net credentials "/live-rates/settings/parcel-template"
        RequestOptions.default = (.error e, n) →
      (∀ m, e ≠ .api m 404) →
      runOp net credentials .getDefaultParcelTemplate = (.error e, n)) ∧
    (∀ v n, request net credentials "/live-rates/settings/parcel-template"
        RequestOptions.default = (.ok v, n) →
      runOp net credentials .getDefaultParcelTemplate = (.ok v, n)) := by
  refine ⟨?_, ?_, ?_⟩
  · intro m n hreq
    simp only [runOp, hreq]
  · intro e n hreq hne
    simp only [runOp, hreq]
    cases e with
    | api m s =>
      rcases eq_or_ne s 404 with hs | hs
      · exact absurd (by rw [hs]) (hne m)
      · simp [hs]
    | auth m => rfl
    | rateLimit m r => rfl
    | jsError m => rfl
  · intro v n hreq
    simp only [runOp, hreq]

/-- Witness for C2: a 404 from the template endpoint yields `null`
successfully, while a 500 propagates as the API failure. -/
theorem c2_default_parcel_template_404_witness :
    runOp (fun _ => { status := 404, retryAfter := none, bodyJson := none })
        { apiKey := some "key", baseUrl := none } .getDefaultParcelTemplate =
      (.ok .null, 1) ∧
    runOp (fun _ => { status := 500, retryAfter := none, bodyJson := none })
        { apiKey := some "key", baseUrl := none } .getDefaultParcelTemplate =
      (.error (.api "API error: 500" 500), 1) := by
  constructor
  · exact (c2_default_parcel_template_404
      (fun _ => { status := 404, retryAfter := none, bodyJson := none })
      { apiKey := some "key", baseUrl := none }).1 "API error: 404" 1 rfl
  · exact (c2_default_parcel_template_404
      (fun _ => { status := 500, retryAfter := none, bodyJson := none })
      { apiKey := some "key", baseUrl := none }).2.1 (.api "API error: 500" 500) 1 rfl
      (fun m hm => by simp at hm)

/-- Claim C6: `createLiveRate` unwraps the `{results: [...]}` envelope of a
successful response and returns the inner array itself. -/
theorem c6_create_live_rate_unwraps (net : Network)
    (credentials : TenantCredentials) (input : JsValue)
    (fields : List (String × JsValue)) (rs : List JsValue) (n : Nat)
    (hreq : request net credentials "/live-rates" (postOpts input) = (.ok (.obj fields), n))
    (hres : fields.lookup "results" = some (.arr rs)) :
    runOp net credentials (.createLiveRate input) = (.ok (.arr rs), n) := by
  simp only [runOp, hreq, jsGetProp, hres, Option.getD]

/-- A network oracle answering with a live-rate envelope
`{results: [{title: "USPS Priority", amount: "7.50", currency: "USD"}]}`. -/
def liveRateNet : Network := fun _ =>
  { status := 200, retryAfter := none,
    bodyJson := some (.obj [("results", .arr [.obj [("title", .str "USPS Priority"),
      ("amount", .str "7.50"), ("currency", .str "USD")]])]) }

/-- Witness for C6: the concrete envelope is unwrapped to its inner array. -/
theorem c6_create_live_rate_unwraps_witness :
    runOp liveRateNet { apiKey := some "key", baseUrl := none }
        (.createLiveRate (.obj [("address_from", .str "adr_1")])) =
      (.ok (.arr [.obj [("title", .str "USPS Priority"),
        ("amount", .str "7.50"), ("currency", .str "USD")]]), 1) := by
  exact c6_create_live_rate_unwraps liveRateNet { apiKey := some "key", baseUrl := none }
    (.obj [("address_from", .str "adr_1")]) _ _ 1 rfl rfl

/-- Claim C8: `testConnection` never throws — it always returns a
`{connected, message}` value and performs exactly the underlying request's
network calls; `connected` is true with the fixed success message exactly
when the underlying list-addresses request succeeds, and false with the
failure's message otherwise. -/
theorem c8_test_connection_total (net : Network) (credentials : TenantCredentials) :
    (∃ b m, runOp net credentials .testConnection =
      (.ok (.obj [("connected", .bool b), ("message", .str m)]),
        (request net credentials "/addresses?results=1" RequestOptions.default).2)) ∧
    (∀ v n, request net credentials "/addresses?results=1" RequestOptions.default =
        (.ok v, n) →
      runOp net credentials .testConnection =
        (.ok (.obj [("connected", .bool true),
          ("message", .str "Successfully connected to Shippo API")]), n)) ∧
    (∀ e n, request net credentials "/addresses?results=1" RequestOptions.default =
        (.error e, n) →
      runOp net credentials .testConnection =
        (.ok (.obj [("connected", .bool false), ("message", .str e.message)]), n)) := by
  refine ⟨?_, ?_, ?_⟩
  · rcases hR : request net credentials "/addresses?results=1" RequestOptions.default
      with ⟨r, k⟩
    cases r with
    | ok v =>
      exact ⟨true, "Successfully connected to Shippo API", by simp only [runOp, hR]⟩
    | error e =>
      exact ⟨false, e.message, by simp only [runOp, hR]⟩
  · intro v n hreq
    simp only [runOp, hreq]
  · intro e n hreq
    simp only [runOp, hreq]

/-- A network oracle answering every call with a bare 500. -/
def failingNet : Network := fun _ =>
  { status := 500, retryAfter := none, bodyJson := none }

/-- Witness for C8: against a 500-answering oracle, `testConnection`
returns connected-false with the API failure's message after one call. -/
theorem c8_test_connection_total_witness :
    runOp failingNet { apiKey := some "key", baseUrl := none } .testConnection =
      (.ok (.obj [("connected", .bool false), ("message", .str "API error: 500")]), 1) := by
  exact (c8_test_connection_total failingNet { apiKey := some "key", baseUrl := none }).2.2
    (.api "API error: 500" 500) 1 rfl

/-- Total property read used by the response formatters: the looked-up
field of an object, `undefined` otherwise. The formatters only ever read
properties of parsed JSON objects; a read on `null`/`undefined` (which
would throw in JavaScript) is outside the formalized claims. -/
def jsProp (v : JsValue) (k : String) : JsValue :=
  match v with
  | .obj fields => (fields.lookup k).getD .undefined
  | _ => .undefined

/-- The `.length` read of an array-valued field as the formatters use it. -/
def jsLen (v : JsValue) : Nat :=
  match v with
  | .arr xs => xs.length
  | _ => 0

/-- `Object.keys` of a runtime value (field names of an object, nothing for
primitives and arrays as the formatters use it). -/
def jsKeys (v : JsValue) : List String :=
  match v with
  | .obj fields => fields.map Prod.fst
  | _ => []

/-- `lines.join('\n')`. -/
def joinLines (lines : List String) : String :=
  String.intercalate "\n" lines

/-- `str.charAt(0).toUpperCase() + str.slice(1)`. -/
def capitalize (s : String) : String :=
  match s.data with
  | [] => ""
  | c :: cs => String.mk (c.toUpper :: cs)

/-- `entityType.replace(/s$/, '')`. -/
def stripTrailingS (s : String) : String :=
  if s.endsWith "s" then s.dropRight 1 else s

/-- `formatKey`: snake_case to Title Case. -/
def formatKey (key : String) : String :=
  String.intercalate " " ((key.splitOn "_").map capitalize)

/-- Values that satisfy `typeof value === 'object'` after the null check. -/
def isJsObjectLike : JsValue → Bool
  | .arr _ => true
  | .obj _ => true
  | _ => false

/-- Embedding of `formatAddressesTable`. -/
def formatAddressesTable (addresses : List JsValue) : String :=
  joinLines (["| ID | Name | Address | City | State | ZIP | Country |",
    "|---|---|---|---|---|---|---|"] ++
    addresses.map (fun addr =>
      "| " ++ jsToStr (jsProp addr "object_id") ++ " | " ++ jsToStr (jsProp addr "name") ++
      " | " ++ jsToStr (jsProp addr "street1") ++ " | " ++ jsToStr (jsProp addr "city") ++
      " | " ++ jsToStr (jsProp addr "state") ++ " | " ++ jsToStr (jsProp addr "zip") ++
      " | " ++ jsToStr (jsProp addr "country") ++ " |"))

/-- Embedding of `formatParcelsTable`. -/
def formatParcelsTable (parcels : List JsValue) : String :=
  joinLines (["| ID | Dimensions (LxWxH) | Weight | Template |",
    "|---|---|---|---|"] ++
    parcels.map (fun parcel =>
      let dims := jsToStr (jsProp parcel "length") ++ "x" ++ jsToStr (jsProp parcel "width") ++
        "x" ++ jsToStr (jsProp parcel "height") ++ " " ++ jsToStr (jsProp parcel "distance_unit")
      let weight := jsToStr (jsProp parcel "weight") ++ " " ++ jsToStr (jsProp parcel "mass_unit")
      "| " ++ jsToStr (jsProp parcel "object_id") ++ " | " ++ dims ++ " | " ++ weight ++
      " | " ++ jsToStr (jsOr (jsProp parcel "template") (.str "-")) ++ " |"))

/-- Embedding of `formatShipmentsTable`. -/
def formatShipmentsTable (shipments : List JsValue) : String :=
  joinLines (["| ID | Status | From | To | Parcels | Rates |",
    "|---|---|---|---|---|---|"] ++
    shipments.map (fun shipment =>
      let fromAddr := jsToStr (jsProp (jsProp shipment "address_from") "city") ++ ", " ++
        jsToStr (jsProp (jsProp shipment "address_from") "state")
      let toAddr := jsToStr (jsProp (jsProp shipment "address_to") "city") ++ ", " ++
        jsToStr (jsProp (jsProp shipment "address_to") "state")
      "| " ++ jsToStr (jsProp shipment "object_id") ++ " | " ++
      jsToStr (jsProp shipment "status") ++ " | " ++ fromAddr ++ " | " ++ toAddr ++ " | " ++
      toString (jsLen (jsProp shipment "parcels")) ++ " | " ++
      toString (jsLen (jsProp shipment "rates")) ++ " |"))

/-- Embedding of `formatRatesTable`. -/
def formatRatesTable (rates : List JsValue) : String :=
  joinLines (["| ID | Provider | Service | Amount | Est. Days |",
    "|---|---|---|---|---|"] ++
    rates.map (fun rate =>
      "| " ++ jsToStr (jsProp rate "object_id") ++ " | " ++
      jsToStr (jsProp rate "provider") ++ " | " ++
      jsToStr (jsProp (jsProp rate "servicelevel") "name") ++ " | " ++
      jsToStr (jsProp rate "currency") ++ " " ++ jsToStr (jsProp rate "amount") ++ " | " ++
      jsToStr (jsOr (jsProp rate "estimated_days") (.str "-")) ++ " |"))

/-- Embedding of `formatTransactionsTable`. -/
def formatTransactionsTable (transactions : List JsValue) : String :=
  joinLines (["| ID | Status | Tracking # | Tracking Status |",
    "|---|---|---|---|"] ++
    transactions.map (fun tx =>
      "| " ++ jsToStr (jsProp tx "object_id") ++ " | " ++ jsToStr (jsProp tx "status") ++
      " | " ++ jsToStr (jsOr (jsProp tx "tracking_number") (.str "-")) ++ " | " ++
      jsToStr (jsProp tx "tracking_status") ++ " |"))

/-- Embedding of `formatCarrierAccountsTable`. -/
def formatCarrierAccountsTable (accounts : List JsValue) : String :=
  joinLines (["| ID | Carrier | Account ID | Active |",
    "|---|---|---|---|"] ++
    accounts.map (fun acc =>
      "| " ++ jsToStr (jsProp acc "object_id") ++ " | " ++ jsToStr (jsProp acc "carrier") ++
      " | " ++ jsToStr (jsProp acc "account_id") ++ " | " ++
      (if jsTruthy (jsProp acc "active") then "Yes" else "No") ++ " |"))

/-- Embedding of `formatCustomsItemsTable`. -/
def formatCustomsItemsTable (items : List JsValue) : String :=
  joinLines (["| ID | Description | Qty | Value | Origin |",
    "|---|---|---|---|---|"] ++
    items.map (fun item =>
      "| " ++ jsToStr (jsProp item "object_id") ++ " | " ++
      jsToStr (jsProp item "description") ++ " | " ++ jsToStr (jsProp item "quantity") ++
      " | " ++ jsToStr (jsProp item "value_currency") ++ " " ++
      jsToStr (jsProp item "value_amount") ++ " | " ++
      jsToStr (jsProp item "origin_country") ++ " |"))

/-- Embedding of `formatCustomsDeclarationsTable`. -/
def formatCustomsDeclarationsTable (declarations : List JsValue) : String :=
  joinLines (["| ID | Contents Type | Items | Certify |",
    "|---|---|---|---|"] ++
    declarations.map (fun decl =>
      "| " ++ jsToStr (jsProp decl "object_id") ++ " | " ++
      jsToStr (jsProp decl "contents_type") ++ " | " ++
      toString (jsLen (jsProp decl "items")) ++ " | " ++
      (if jsTruthy (jsProp decl "certify") then "Yes" else "No") ++ " |"))

/-- Embedding of `formatManifestsTable`. -/
def formatManifestsTable (manifests : List JsValue) : String :=
  joinLines (["| ID | Status | Shipment Date | Transactions |",
    "|---|---|---|---|"] ++
    manifests.map (fun manifest =>
      "| " ++ jsToStr (jsProp manifest "object_id") ++ " | " ++
      jsToStr (jsProp manifest "status") ++ " | " ++
      jsToStr (jsProp manifest "shipment_date") ++ " | " ++
      toString (jsLen (jsProp manifest "transactions")) ++ " |"))

/-- Embedding of `formatOrdersTable`. -/
def formatOrdersTable (orders : List JsValue) : String :=
  joinLines (["| ID | Order # | Status | Total | Items |",
    "|---|---|---|---|---|"] ++
    orders.map (fun order =>
      "| " ++ jsToStr (jsProp order "object_id") ++ " | " ++
      jsToStr (jsProp order "order_number") ++ " | " ++
      jsToStr (jsProp order "order_status") ++ " | " ++
      jsToStr (jsOr (jsProp order "currency") (.str "")) ++ " " ++
      jsToStr (jsOr (jsProp order "total_price") (.str "-")) ++ " | " ++
      toString (jsLen (jsProp order "line_items")) ++ " |"))

/-- Embedding of `formatServiceGroupsTable`. -/
def formatServiceGroupsTable (groups : List JsValue) : String :=
  joinLines (["| ID | Name | Type | Active | Services |",
    "|---|---|---|---|---|"] ++
    groups.map (fun group =>
      "| " ++ jsToStr (jsProp group "object_id") ++ " | " ++ jsToStr (jsProp group "name") ++
      " | " ++ jsToStr (jsProp group "type") ++ " | " ++
      (if jsTruthy (jsProp group "is_active") then "Yes" else "No") ++ " | " ++
      toString (jsLen (jsProp group "service_levels")) ++ " |"))

/-- Embedding of `formatCarrierParcelTemplatesTable`. -/
def formatCarrierParcelTemplatesTable (templates : List JsValue) : String :=
  joinLines (["| Token | Carrier | Name | Dimensions |",
    "|---|---|---|---|"] ++
    templates.map (fun template =>
      let dims := jsToStr (jsProp template "length") ++ "x" ++
        jsToStr (jsProp template "width") ++ "x" ++ jsToStr (jsProp template "height") ++
        " " ++ jsToStr (jsProp template "distance_unit")
      "| " ++ jsToStr (jsProp template "token") ++ " | " ++
      jsToStr (jsProp template "carrier") ++ " | " ++ jsToStr (jsProp template "name") ++
      " | " ++ dims ++ " |"))

/-- Embedding of `formatUserParcelTemplatesTable`. -/
def formatUserParcelTemplatesTable (templates : List JsValue) : String :=
  joinLines (["| ID | Name | Dimensions | Weight |",
    "|---|---|---|---|"] ++
    templates.map (fun template =>
      let dims := jsToStr (jsProp template "length") ++ "x" ++
        jsToStr (jsProp template "width") ++ "x" ++ jsToStr (jsProp template "height") ++
        " " ++ jsToStr (jsProp template "distance_unit")
      let weight := if jsTruthy (jsProp template "weight") then
          jsToStr (jsProp template "weight") ++ " " ++ jsToStr (jsProp template "weight_unit")
        else "-"
      "| " ++ jsToStr (jsProp template "object_id") ++ " | " ++
      jsToStr (jsProp template "name") ++ " | " ++ dims ++ " | " ++ weight ++ " |"))

/-- Embedding of `formatGenericTable`: `"_No items_"` on an empty array;
otherwise the keys of the first element (at most 5) head a table of all
items, with `record[k] ?? '-'` stringified per cell. -/
def formatGenericTable (items : List JsValue) : String :=
  if items.length = 0 then "_No items_"
  else
    let keys := (jsKeys (items.headD .undefined)).take 5
    joinLines (["| " ++ String.intercalate " | " keys ++ " |",
      "|" ++ String.intercalate "|" (keys.map (fun _ => "---")) ++ "|"] ++
      items.map (fun item =>
        "| " ++ String.intercalate " | " (keys.map (fun k =>
          jsToStr (jsNullish (jsProp item k) (.str "-")))) ++ " |"))

/-- Embedding of `formatTrackingHistoryAsMarkdown` (optional chaining on
`tracking_status` reads `undefined` through an absent object). -/
def formatTrackingHistoryAsMarkdown (events : List JsValue) : String :=
  joinLines (events.flatMap (fun event =>
    ["### " ++ jsToStr (jsOr (jsProp (jsProp event "tracking_status") "status")
        (.str "Unknown")),
     "**Date:** " ++ jsToStr (jsOr (jsProp (jsProp event "tracking_status") "status_date")
        (.str "-")),
     "**Details:** " ++ jsToStr (jsOr (jsProp (jsProp event "tracking_status")
        "status_details") (.str "-")),
     ""]))

/-- The entity-type dispatch switch of `formatPaginatedAsMarkdown`. -/
def dispatchEntityTable (entityType : String) (results : List JsValue) : String :=
  match entityType with
  | "addresses" => formatAddressesTable results
  | "parcels" => formatParcelsTable results
  | "shipments" => formatShipmentsTable results
  | "rates" => formatRatesTable results
  | "transactions" => formatTransactionsTable results
  | "carrier_accounts" => formatCarrierAccountsTable results
  | "customs_items" => formatCustomsItemsTable results
  | "customs_declarations" => formatCustomsDeclarationsTable results
  | "manifests" => formatManifestsTable results
  | "orders" => formatOrdersTable results
  | "service_groups" => formatServiceGroupsTable results
  | "carrier_parcel_templates" => formatCarrierParcelTemplatesTable results
  | "user_parcel_templates" => formatUserParcelTemplatesTable results
  | _ => formatGenericTable results

/-- The `isPaginatedResponse` type guard: an object (arrays excluded, they
have no `results` own-property) whose `results` field is an array. -/
def isPaginatedResponse : JsValue → Bool
  | .obj fields =>
    match fields.lookup "results" with
    | some (.arr _) => true
    | _ => false
  | _ => false

/-- The `results` array of a paginated response (the guard guarantees the
field is an array). -/
def resultsArr (data : JsValue) : List JsValue :=
  match jsProp data "results" with
  | .arr xs => xs
  | _ => []

/-- Embedding of `formatPaginatedAsMarkdown`: heading and count lines, an
optional next-page line, a blank line; then either the early
`"_No items found._"` return on an empty results array, or the
entity-table dispatch. -/
def formatPaginatedAsMarkdown (data : JsValue) (entityType : String) : String :=
  let results := resultsArr data
  let header := ["## " ++ capitalize entityType, "",
    "**Total:** " ++ jsToStr (jsProp data "count") ++ " | **Showing:** " ++
      toString results.length]
  let header := if jsTruthy (jsProp data "next") then
      header ++ ["**Next page available**"]
    else header
  let header := header ++ [""]
  if results.length = 0 then joinLines (header ++ ["_No items found._"])
  else joinLines (header ++ [dispatchEntityTable entityType results])

/-- Embedding of `formatArrayAsMarkdown`. -/
def formatArrayAsMarkdown (data : List JsValue) (entityType : String) : String :=
  if entityType = "rates" then formatRatesTable data
  else if entityType = "tracking_history" then formatTrackingHistoryAsMarkdown data
  else formatGenericTable data

/-- Embedding of `formatObjectAsMarkdown`: a heading from the entity type
with its trailing `s` stripped, then one line per non-nullish field —
object-valued fields as fenced JSON blocks, scalars inline. -/
def formatObjectAsMarkdown (data : List (String × JsValue)) (entityType : String) : String :=
  joinLines (["## " ++ capitalize (stripTrailingS entityType), ""] ++
    data.flatMap (fun p =>
      if !(jsPresent p.2) then []
      else if isJsObjectLike p.2 then
        ["**" ++ formatKey p.1 ++ ":**", "```json",
          (jsonStringifyP 0 p.2).getD "undefined", "```"]
      else ["**" ++ formatKey p.1 ++ ":** " ++ jsToStr p.2]))

/-- Embedding of `formatAsMarkdown`: paginated guard first, then array,
then object, then `String(data)`. -/
def formatAsMarkdown (data : JsValue) (entityType : String) : String :=
  if isPaginatedResponse data then formatPaginatedAsMarkdown data entityType
  else
    match data with
    | .arr xs => formatArrayAsMarkdown xs entityType
    | .obj fields => formatObjectAsMarkdown fields entityType
    | v => jsToStr v

/-- One `{type: 'text', text}` content item of a tool response. -/
structure ContentItem : Type where
  type : String
  text : String
deriving Repr

/-- The MCP tool response envelope (`isError` is an optional field). -/
structure ToolResponse : Type where
  content : List ContentItem
  isError : Option Bool
deriving Repr

/-- Embedding of `formatResponse`: Markdown rendering or pretty-printed
JSON, in a content envelope without `isError`. -/
def formatResponse (data : JsValue) (format : String) (entityType : String) : ToolResponse :=
  if format = "markdown" then
    { content := [{ type := "text", text := formatAsMarkdown data entityType }],
      isError := none }
  else
    { content := [{ type := "text", text := (jsonStringifyP 0 data).getD "undefined" }],
      isError := none }

/-- Modelled from the spec: the `retryable` flag of `ShippoApiError` lives
in the missing `src/utils/errors.ts`; the spec says API failures are
"treated as potentially retryable by convention for 5xx-class codes". -/
def apiRetryable (statusCode : Nat) : Bool := 500 ≤ statusCode

/-- Modelled from the spec: `formatErrorForLogging` lives in the missing
`src/utils/errors.ts`; the spec only requires the error envelope to carry
a `details` value, modelled as a record of the failure's classification. -/
def formatErrorForLogging : Thrown → JsValue
  | .auth m => .obj [("name", .str "AuthenticationError"), ("message", .str m)]
  | .rateLimit m r => .obj [("name", .str "RateLimitError"), ("message", .str m),
      ("retryAfterSeconds", .num r)]
  | .api m s => .obj [("name", .str "ShippoApiError"), ("message", .str m),
      ("statusCode", .num s)]
  | .jsError m => .obj [("name", .str "Error"), ("message", .str m)]

/-- The message selection of `formatError`: API failures may append a
retryable marker; every other thrown value is an `Error` and contributes
its message. -/
def formatErrorMessage (error : Thrown) : String :=
  match error with
  | .api m s => "Error: " ++ m ++ (if apiRetryable s then " (retryable)" else "")
  | e => "Error: " ++ e.message

/-- Embedding of `formatError`: the uniform error envelope — a single text
content item holding the pretty JSON of `{error, details}`, with `isError`
set to true. -/
def formatError (error : Thrown) : ToolResponse :=
  let text := (jsonStringifyP 0 (.obj [("error", .str (formatErrorMessage error)),
    ("details", formatErrorForLogging error)])).getD "undefined"
  { content := [{ type := "text", text := text }], isError := some true }

/-- Embedding of the `shippo_list_addresses` tool handler: run
`client.listAddresses({results, page})` inside a `try`, formatting the
result on success and converting any thrown failure with `formatError`. -/
def toolListAddresses (net : Network) (credentials : TenantCredentials)
    (results : Int) (page : Option Int) (format : String) : ToolResponse :=
  match runOp net credentials (.listAddresses (some [("results", .num results),
      ("page", match page with | some p => JsValue.num p | none => JsValue.undefined)])) with
  | (.ok result, _) => formatResponse result format "addresses"
  | (.error e, _) => formatError e

/-- Claim C7: every failure thrown by the client operation during a tool
invocation is caught by the tool layer and returned as a normal value of
the error-envelope shape — a single text content item holding the JSON of
`{error, details}` with `isError` set to true — never escaping as an
exception. -/
theorem c7_tool_error_envelope (net : Network) (credentials : TenantCredentials)
    (results : Int) (page : Option Int) (format : String) (e : Thrown) (n : Nat)
    (hfail : runOp net credentials (.listAddresses (some [("results", .num results),
      ("page", match page with | some p => JsValue.num p | none => JsValue.undefined)])) =
      (.error e, n)) :
    toolListAddresses net credentials results page format = formatError e ∧
    (formatError e).isError = some true ∧
    (formatError e).content = [ContentItem.mk "text"
      ((jsonStringifyP 0 (.obj [("error", .str (formatErrorMessage e)),
        ("details", formatErrorForLogging e)])).getD "undefined")] := by
  refine ⟨?_, rfl, rfl⟩
  simp only [toolListAddresses, hfail]

/-- Witness for C7: against a 500-answering oracle the list-addresses tool
returns the error envelope of the thrown API failure, with `isError`
true. -/
theorem c7_tool_error_envelope_witness :
    toolListAddresses failingNet { apiKey := some "key", baseUrl := none } 20 none "json" =
      formatError (.api "API error: 500" 500) ∧
    (formatError (.api "API error: 500" 500)).isError = some true := by
  have h := c7_tool_error_envelope failingNet { apiKey := some "key", baseUrl := none }
    20 none "json" (.api "API error: 500" 500) 1 rfl
  exact ⟨h.1, h.2.1⟩

/-- Claim C10: on a paginated response with an empty results array the
Markdown formatter emits the heading and count lines (and the optional
next-page line) followed by `"_No items found._"`, a closed form
independent of the entity-table dispatch; and the generic table formatter
returns `"_No items_"` on an empty array, reading the first element's keys
only in the non-empty case. -/
theorem c10_empty_results_safe :
    (∀ (cv nextV prevV : JsValue) (entityType : String),
      formatPaginatedAsMarkdown
        (.obj [("count", cv), ("next", nextV), ("previous", prevV), ("results", .arr [])])
        entityType =
      joinLines (["## " ++ capitalize entityType, "",
        "**Total:** " ++ jsToStr cv ++ " | **Showing:** 0"] ++
        (if jsTruthy nextV then ["**Next page available**"] else []) ++
        ["", "_No items found._"])) ∧
    formatGenericTable [] = "_No items_" ∧
    (∀ x xs, formatGenericTable (x :: xs) =
      joinLines (["| " ++ String.intercalate " | " ((jsKeys x).take 5) ++ " |",
        "|" ++ String.intercalate "|" (((jsKeys x).take 5).map (fun _ => "---")) ++ "|"] ++
        (x :: xs).map (fun item =>
          "| " ++ String.intercalate " | " (((jsKeys x).take 5).map (fun k =>
            jsToStr (jsNullish (jsProp item k) (.str "-")))) ++ " |"))) := by
  refine ⟨?_, rfl, ?_⟩
  · intro cv nextV prevV entityType
    have h0 : toString (0 : Nat) = "0" := rfl
    by_cases hnext : jsTruthy nextV = true
    · simp [formatPaginatedAsMarkdown, resultsArr, jsProp, List.lookup, hnext, h0, String.append_assoc]
    · simp only [Bool.not_eq_true] at hnext
      simp [formatPaginatedAsMarkdown, resultsArr, jsProp, List.lookup, hnext, h0, String.append_assoc]
  · intro x xs
    simp [formatGenericTable]

/-- Witness for C10: a concrete empty paginated response for the
`addresses` entity renders the heading, counts, next-page note and the
no-items marker. -/
theorem c10_empty_results_safe_witness :
    formatPaginatedAsMarkdown
        (.obj [("count", .num 5), ("next", .str "https://api.goshippo.com/addresses?page=2"),
          ("previous", .null), ("results", .arr [])]) "addresses" =
      "## Addresses\n\n**Total:** 5 | **Showing:** 0\n**Next page available**\n\n_No items found._" := by
  have h := c10_empty_results_safe.1 (.num 5)
    (.str "https://api.goshippo.com/addresses?page=2") .null "addresses"
  rw [h]
  rfl

end Shippo
